import Mathlib

/-!
Shallow embedding of the askspoke-sdk-node client (src/lib/askspoke.js).

The repository contains two revisions of the client:

* class `AskSpoke` — constructed with a literal API token, each endpoint
  method builds a fresh options object (url, Api-Key header, query or body)
  and issues one `got` call;
* class `Spoke` — constructed with an AWS Secrets Manager secret path,
  resolves the token lazily through `token()` with an instance-level cache,
  and stores per-call query/body parameters in the instance-level slots
  `searchParams` / `bodyParams` read by `gotClient()`.

External collaborators are modelled as oracles indexed by how many calls
have been made so far: the secret store is `store : Nat → Except ε String`
(result of the n-th `getSecretValue` read; `SecretString` is modelled as the
returned string, with the empty string playing the role of a JS-falsy
value), and the HTTP transport is `http : Nat → Except ε ρ` (settlement of
the n-th issued request).  Errors (`ε`) and responses (`ρ`) are opaque type
parameters, so the embedded client cannot fabricate or inspect them — it
can only pass them through, exactly like the JS code, whose every catch
block is `return Promise.reject(error)`.

Effects are recorded in a `Trace`: the number of secret-store reads and the
list of HTTP requests issued, in order.
-/

namespace AskSpokeSdk

/-- Query strings and JSON payloads are passed through the client opaquely;
we model both as association lists of string pairs. -/
abbrev Params := List (String × String)

/-- HTTP verbs used by the client. -/
inductive Method where
  | GET
  | POST
  | PATCH
  | DELETE
deriving DecidableEq

/-- One issued HTTP request: verb, full URL, headers, query parameters
(`searchParams` in got), and JSON body (`json` in got). -/
structure Request where
  method : Method
  url : String
  headers : List (String × String)
  searchParams : Option Params
  json : Option Params
deriving DecidableEq

/-- Trace of external effects: number of secret-store reads performed and
the HTTP requests issued so far, in order. -/
structure Trace where
  reads : Nat
  requests : List Request
deriving DecidableEq

/-- State of one `Spoke` instance: the constructor argument, the token
cache `_cache.token` (JS `undefined` is `none`), the two shared per-call
parameter slots, and the effect trace. -/
structure SpokeState where
  secretPath : String
  cacheToken : Option String
  searchParams : Option Params
  bodyParams : Option Params
  trace : Trace
deriving DecidableEq

/-- JS truthiness of the cache slot `this._cache.token`: `undefined` and
the empty string are falsy, every other string is truthy. -/
def jsTruthy : Option String → Bool
  | none => false
  | some s => s ≠ ""

/-- The `Spoke` constructor: store the secret path, initialise
`_cache.token`, `searchParams` and `bodyParams` to `undefined`, and start
with an empty effect trace. -/
def SpokeState.new (secretPath : String) : SpokeState :=
  { secretPath := secretPath
    cacheToken := none
    searchParams := none
    bodyParams := none
    trace := { reads := 0, requests := [] } }

namespace Spoke

variable {ε ρ : Type}

/-- The body of `Spoke.token()` past the cache check: one
`getSecretValue` read against the store; on success the `SecretString` is
written to the cache and returned, on failure the original error is
rejected and the cache is left untouched. -/
def fetchToken (store : Nat → Except ε String) (st : SpokeState) :
    Except ε String × SpokeState :=
  match store st.trace.reads with
  | Except.ok s =>
      (Except.ok s,
        { st with
            cacheToken := some s
            trace := { st.trace with reads := st.trace.reads + 1 } })
  | Except.error e =>
      (Except.error e,
        { st with trace := { st.trace with reads := st.trace.reads + 1 } })

/-- `Spoke.token()`: `if (this._cache.token) return this._cache.token;`
(JS truthiness), otherwise perform one secret-store read. -/
def token (store : Nat → Except ε String) (st : SpokeState) :
    Except ε String × SpokeState :=
  match st.cacheToken with
  | some t => if t = "" then fetchToken store st else (Except.ok t, st)
  | none => fetchToken store st

/-- The configured got instance produced by `got.extend` in
`Spoke.gotClient()`: fixed prefix URL, the resolved token under the
`Api-key` header, and a snapshot of the two instance parameter slots. -/
structure GotInstance where
  prefixUrl : String
  apiKey : String
  searchParams : Option Params
  json : Option Params
deriving DecidableEq

/-- Fixed base URL used by `Spoke.gotClient()`. -/
def spokePrefixUrl : String := "https://api.askspoke.com/api/v1/"

/-- `Spoke.gotClient()`: await `this.token()`, then build the extended got
instance from the current instance slots.  A token failure propagates
unchanged. -/
def gotClient (store : Nat → Except ε String) (st : SpokeState) :
    Except ε GotInstance × SpokeState :=
  match token store st with
  | (Except.ok apiKey, st') =>
      (Except.ok
        { prefixUrl := spokePrefixUrl
          apiKey := apiKey
          searchParams := st'.searchParams
          json := st'.bodyParams }, st')
  | (Except.error e, st') => (Except.error e, st')

/-- `client.get/post/patch/delete(endpoint)`: issue one HTTP request built
from the got instance and let the transport oracle settle it. -/
def gotCall (http : Nat → Except ε ρ) (client : GotInstance)
    (m : Method) (endpoint : String) (st : SpokeState) :
    Except ε ρ × SpokeState :=
  (http st.trace.requests.length,
    { st with trace := { st.trace with requests := st.trace.requests ++
        [{ method := m
           url := client.prefixUrl ++ endpoint
           headers := [("Api-key", client.apiKey)]
           searchParams := client.searchParams
           json := client.json }] } })

/-- The shared try/catch shape of every `Spoke` endpoint method except
`listRequests`: await `gotClient`, await the verb call, resolve the
response, and reject any caught error unchanged. -/
def dispatch (store : Nat → Except ε String) (http : Nat → Except ε ρ)
    (m : Method) (endpoint : String) (st : SpokeState) :
    Except ε ρ × SpokeState :=
  match gotClient store st with
  | (Except.error e, st') => (Except.error e, st')
  | (Except.ok client, st') =>
      match gotCall http client m endpoint st' with
      | (Except.ok r, st'') => (Except.ok r, st'')
      | (Except.error e, st'') => (Except.error e, st'')

/-- The `listRequests` shape: the verb call is not awaited inside the try
block, so its promise is returned as-is and adopted by `Promise.resolve`;
the catch block can only see `gotClient` failures, while the HTTP call's
settlement (success or rejection) passes through untouched. -/
def dispatchUnawaited (store : Nat → Except ε String) (http : Nat → Except ε ρ)
    (m : Method) (endpoint : String) (st : SpokeState) :
    Except ε ρ × SpokeState :=
  match gotClient store st with
  | (Except.error e, st') => (Except.error e, st')
  | (Except.ok client, st') => gotCall http client m endpoint st'

/-- `Spoke.listRequestTypes(params)`: set the query slot, clear the body
slot, GET `request_types`. -/
def listRequestTypes (store : Nat → Except ε String) (http : Nat → Except ε ρ)
    (params : Params) (st : SpokeState) : Except ε ρ × SpokeState :=
  dispatch store http Method.GET "request_types"
    { st with searchParams := some params, bodyParams := none }

/-- `Spoke.listTeams(params)`: set the query slot, clear the body slot,
GET `teams`. -/
def listTeams (store : Nat → Except ε String) (http : Nat → Except ε ρ)
    (params : Params) (st : SpokeState) : Except ε ρ × SpokeState :=
  dispatch store http Method.GET "teams"
    { st with searchParams := some params, bodyParams := none }

/-- `Spoke.listUsers(params)`: set the query slot, clear the body slot,
GET `users`. -/
def listUsers (store : Nat → Except ε String) (http : Nat → Except ε ρ)
    (params : Params) (st : SpokeState) : Except ε ρ × SpokeState :=
  dispatch store http Method.GET "users"
    { st with searchParams := some params, bodyParams := none }

/-- `Spoke.getRequest(requestId)`: GET `requests/{requestId}`.  The source
sets neither parameter slot, so whatever the previous call left there is
snapshotted by `gotClient`. -/
def getRequest (store : Nat → Except ε String) (http : Nat → Except ε ρ)
    (requestId : String) (st : SpokeState) : Except ε ρ × SpokeState :=
  dispatch store http Method.GET ("requests/" ++ requestId) st

/-- `Spoke.deleteRequest(requestId)`: DELETE `requests/{requestId}`; like
`getRequest` it leaves both parameter slots as they were. -/
def deleteRequest (store : Nat → Except ε String) (http : Nat → Except ε ρ)
    (requestId : String) (st : SpokeState) : Except ε ρ × SpokeState :=
  dispatch store http Method.DELETE ("requests/" ++ requestId) st

/-- `Spoke.listRequests(params)`: set the query slot, clear the body slot,
GET `requests` — with the un-awaited verb call (see `dispatchUnawaited`). -/
def listRequests (store : Nat → Except ε String) (http : Nat → Except ε ρ)
    (params : Params) (st : SpokeState) : Except ε ρ × SpokeState :=
  dispatchUnawaited store http Method.GET "requests"
    { st with searchParams := some params, bodyParams := none }

/-- `Spoke.postRequest(request)`: set the body slot, clear the query slot,
POST `requests` (the stray `endpoint` argument to `gotClient` in the
source is ignored by `gotClient`). -/
def postRequest (store : Nat → Except ε String) (http : Nat → Except ε ρ)
    (request : Params) (st : SpokeState) : Except ε ρ × SpokeState :=
  dispatch store http Method.POST "requests"
    { st with bodyParams := some request, searchParams := none }

/-- `Spoke.postMessage(requestId, params)`: set the body slot, clear the
query slot, POST `requests/{requestId}/messages`. -/
def postMessage (store : Nat → Except ε String) (http : Nat → Except ε ρ)
    (requestId : String) (params : Params) (st : SpokeState) :
    Except ε ρ × SpokeState :=
  dispatch store http Method.POST ("requests/" ++ requestId ++ "/messages")
    { st with bodyParams := some params, searchParams := none }

/-- `Spoke.updateRequest(requestId, params)`: set the body slot, clear the
query slot, PATCH `requests/{requestId}`. -/
def updateRequest (store : Nat → Except ε String) (http : Nat → Except ε ρ)
    (requestId : String) (params : Params) (st : SpokeState) :
    Except ε ρ × SpokeState :=
  dispatch store http Method.PATCH ("requests/" ++ requestId)
    { st with bodyParams := some params, searchParams := none }

/-- `Spoke.updateTeam(teamId, params)`: set the body slot, clear the query
slot, PATCH `teams/{teamId}`. -/
def updateTeam (store : Nat → Except ε String) (http : Nat → Except ε ρ)
    (teamId : String) (params : Params) (st : SpokeState) :
    Except ε ρ × SpokeState :=
  dispatch store http Method.PATCH ("teams/" ++ teamId)
    { st with bodyParams := some params, searchParams := none }

/-- `Spoke.listTags(params)`: set the query slot, clear the body slot, GET
`tags`. -/
def listTags (store : Nat → Except ε String) (http : Nat → Except ε ρ)
    (params : Params) (st : SpokeState) : Except ε ρ × SpokeState :=
  dispatch store http Method.GET "tags"
    { st with searchParams := some params, bodyParams := none }

/-- `Spoke.addTags(requestId, params)`: set the body slot, clear the query
slot, PATCH `requests/{requestId}/tags`. -/
def addTags (store : Nat → Except ε String) (http : Nat → Except ε ρ)
    (requestId : String) (params : Params) (st : SpokeState) :
    Except ε ρ × SpokeState :=
  dispatch store http Method.PATCH ("requests/" ++ requestId ++ "/tags")
    { st with bodyParams := some params, searchParams := none }

/-- `Spoke.removeTags(requestId, tagId)`: clear both slots, DELETE
`requests/{requestId}/tags/{tagId}`. -/
def removeTags (store : Nat → Except ε String) (http : Nat → Except ε ρ)
    (requestId : String) (tagId : String) (st : SpokeState) :
    Except ε ρ × SpokeState :=
  dispatch store http Method.DELETE
    ("requests/" ++ requestId ++ "/tags/" ++ tagId)
    { st with bodyParams := none, searchParams := none }

end Spoke

/-- One public endpoint operation of the `Spoke` class together with its
arguments. -/
inductive SpokeOp where
  | listRequestTypes (params : Params)
  | listTeams (params : Params)
  | listUsers (params : Params)
  | getRequest (requestId : String)
  | deleteRequest (requestId : String)
  | listRequests (params : Params)
  | postRequest (request : Params)
  | postMessage (requestId : String) (params : Params)
  | updateRequest (requestId : String) (params : Params)
  | updateTeam (teamId : String) (params : Params)
  | listTags (params : Params)
  | addTags (requestId : String) (params : Params)
  | removeTags (requestId : String) (tagId : String)
deriving DecidableEq

/-- Run one `Spoke` endpoint operation. -/
def runOp {ε ρ : Type} (store : Nat → Except ε String) (http : Nat → Except ε ρ) :
    SpokeOp → SpokeState → Except ε ρ × SpokeState
  | SpokeOp.listRequestTypes p, st => Spoke.listRequestTypes store http p st
  | SpokeOp.listTeams p, st => Spoke.listTeams store http p st
  | SpokeOp.listUsers p, st => Spoke.listUsers store http p st
  | SpokeOp.getRequest rid, st => Spoke.getRequest store http rid st
  | SpokeOp.deleteRequest rid, st => Spoke.deleteRequest store http rid st
  | SpokeOp.listRequests p, st => Spoke.listRequests store http p st
  | SpokeOp.postRequest r, st => Spoke.postRequest store http r st
  | SpokeOp.postMessage rid p, st => Spoke.postMessage store http rid p st
  | SpokeOp.updateRequest rid p, st => Spoke.updateRequest store http rid p st
  | SpokeOp.updateTeam tid p, st => Spoke.updateTeam store http tid p st
  | SpokeOp.listTags p, st => Spoke.listTags store http p st
  | SpokeOp.addTags rid p, st => Spoke.addTags store http rid p st
  | SpokeOp.removeTags rid tid, st => Spoke.removeTags store http rid tid st

/-- Run a sequence of `Spoke` endpoint operations strictly sequentially,
threading the instance state. -/
def runOps {ε ρ : Type} (store : Nat → Except ε String) (http : Nat → Except ε ρ) :
    List SpokeOp → SpokeState → SpokeState
  | [], st => st
  | op :: ops, st => runOps store http ops (runOp store http op st).2

/-- One `AskSpoke` (literal-token revision) client instance: the only field
is the construction-time token.  The class performs no secret-store access
anywhere; its base URL is a fixed constant. -/
structure AskSpokeClient where
  askSpokeToken : String
deriving DecidableEq

namespace AskSpoke

variable {ε ρ : Type}

/-- `this.apiUrl` as set by the `AskSpoke` constructor (note the mixed-case
host spelling in the source). -/
def apiUrl : String := "https://api.askSpoke.com/api/v1"

/-- The shared body of every `AskSpoke` endpoint method: build the options
object (url, `Api-Key` header from the literal token, optional query,
optional body), issue one `got` call, resolve the response or reject the
caught error unchanged.  The secret-store read counter is threaded only to
record that it is never touched. -/
def call (http : Nat → Except ε ρ) (c : AskSpokeClient) (m : Method)
    (url : String) (query body : Option Params) (tr : Trace) :
    Except ε ρ × Trace :=
  let req : Request :=
    { method := m
      url := url
      headers := [("Api-Key", c.askSpokeToken)]
      searchParams := query
      json := body }
  (http tr.requests.length, { tr with requests := tr.requests ++ [req] })

/-- `AskSpoke.listRequestTypes(params)`: GET `{apiUrl}/request_types/` with
`query: params`. -/
def listRequestTypes (http : Nat → Except ε ρ) (c : AskSpokeClient)
    (params : Params) (tr : Trace) : Except ε ρ × Trace :=
  call http c Method.GET (apiUrl ++ "/request_types/") (some params) none tr

/-- `AskSpoke.listTeams(params)`: GET `{apiUrl}/teams/` with
`query: params`. -/
def listTeams (http : Nat → Except ε ρ) (c : AskSpokeClient)
    (params : Params) (tr : Trace) : Except ε ρ × Trace :=
  call http c Method.GET (apiUrl ++ "/teams/") (some params) none tr

/-- `AskSpoke.listUsers(params)`: GET `{apiUrl}/users/` with
`query: params`. -/
def listUsers (http : Nat → Except ε ρ) (c : AskSpokeClient)
    (params : Params) (tr : Trace) : Except ε ρ × Trace :=
  call http c Method.GET (apiUrl ++ "/users/") (some params) none tr

/-- `AskSpoke.getRequest(requestId)`: `got.get(requestId, options)` with
`baseUrl: {apiUrl}/requests/`, so the request URL is the base URL followed
by the request id; no query, no body. -/
def getRequest (http : Nat → Except ε ρ) (c : AskSpokeClient)
    (requestId : String) (tr : Trace) : Except ε ρ × Trace :=
  call http c Method.GET (apiUrl ++ "/requests/" ++ requestId) none none tr

/-- `AskSpoke.listRequests(params)`: GET `{apiUrl}/requests/` with
`query: params`. -/
def listRequests (http : Nat → Except ε ρ) (c : AskSpokeClient)
    (params : Params) (tr : Trace) : Except ε ρ × Trace :=
  call http c Method.GET (apiUrl ++ "/requests/") (some params) none tr

/-- `AskSpoke.postRequest(request)`: POST `{apiUrl}/requests/` with
`body: request`. -/
def postRequest (http : Nat → Except ε ρ) (c : AskSpokeClient)
    (request : Params) (tr : Trace) : Except ε ρ × Trace :=
  call http c Method.POST (apiUrl ++ "/requests/") none (some request) tr

/-- `AskSpoke.updateTeam(teamId, params)`: the options object carries
`url: {apiUrl}/{teamId}` — the `teams/` path segment is absent from the
source — and `body: params`.  The stray first argument in
`got.patch(params, options)` is a plain object without a `url` field, so
under got's argument normalization the request URL is the one from the
options object. -/
def updateTeam (http : Nat → Except ε ρ) (c : AskSpokeClient)
    (teamId : String) (params : Params) (tr : Trace) : Except ε ρ × Trace :=
  call http c Method.PATCH (apiUrl ++ "/" ++ teamId) none (some params) tr

end AskSpoke

/-- One public endpoint operation of the `AskSpoke` class together with
its arguments. -/
inductive AskOp where
  | listRequestTypes (params : Params)
  | listTeams (params : Params)
  | listUsers (params : Params)
  | getRequest (requestId : String)
  | listRequests (params : Params)
  | postRequest (request : Params)
  | updateTeam (teamId : String) (params : Params)
deriving DecidableEq

/-- Run one `AskSpoke` endpoint operation. -/
def runAskOp {ε ρ : Type} (http : Nat → Except ε ρ) (c : AskSpokeClient) :
    AskOp → Trace → Except ε ρ × Trace
  | AskOp.listRequestTypes p, tr => AskSpoke.listRequestTypes http c p tr
  | AskOp.listTeams p, tr => AskSpoke.listTeams http c p tr
  | AskOp.listUsers p, tr => AskSpoke.listUsers http c p tr
  | AskOp.getRequest rid, tr => AskSpoke.getRequest http c rid tr
  | AskOp.listRequests p, tr => AskSpoke.listRequests http c p tr
  | AskOp.postRequest r, tr => AskSpoke.postRequest http c r tr
  | AskOp.updateTeam tid p, tr => AskSpoke.updateTeam http c tid p tr

/-- ASCII lower-casing of one character code point. -/
def charLowerNat (n : Nat) : Nat := if 65 ≤ n ∧ n ≤ 90 then n + 32 else n

/-- The case-folded key of a header name: its code points, ASCII
lower-cased. -/
def nameKey (s : String) : List Nat :=
  s.data.map (fun c => charLowerNat c.toNat)

/-- Case-insensitive header lookup, the way HTTP names headers: the first
header whose name matches up to ASCII case, if any. -/
def headerGet (name : String) (hs : List (String × String)) : Option String :=
  (hs.find? (fun h => nameKey h.1 == nameKey name)).map (fun h => h.2)

/-- The HTTP verb each `Spoke` endpoint method uses. -/
def SpokeOp.method : SpokeOp → Method
  | SpokeOp.listRequestTypes _ => Method.GET
  | SpokeOp.listTeams _ => Method.GET
  | SpokeOp.listUsers _ => Method.GET
  | SpokeOp.getRequest _ => Method.GET
  | SpokeOp.deleteRequest _ => Method.DELETE
  | SpokeOp.listRequests _ => Method.GET
  | SpokeOp.postRequest _ => Method.POST
  | SpokeOp.postMessage _ _ => Method.POST
  | SpokeOp.updateRequest _ _ => Method.PATCH
  | SpokeOp.updateTeam _ _ => Method.PATCH
  | SpokeOp.listTags _ => Method.GET
  | SpokeOp.addTags _ _ => Method.PATCH
  | SpokeOp.removeTags _ _ => Method.DELETE

/-- The endpoint string each `Spoke` endpoint method passes to the got
instance. -/
def SpokeOp.endpoint : SpokeOp → String
  | SpokeOp.listRequestTypes _ => "request_types"
  | SpokeOp.listTeams _ => "teams"
  | SpokeOp.listUsers _ => "users"
  | SpokeOp.getRequest rid => "requests/" ++ rid
  | SpokeOp.deleteRequest rid => "requests/" ++ rid
  | SpokeOp.listRequests _ => "requests"
  | SpokeOp.postRequest _ => "requests"
  | SpokeOp.postMessage rid _ => "requests/" ++ rid ++ "/messages"
  | SpokeOp.updateRequest rid _ => "requests/" ++ rid
  | SpokeOp.updateTeam tid _ => "teams/" ++ tid
  | SpokeOp.listTags _ => "tags"
  | SpokeOp.addTags rid _ => "requests/" ++ rid ++ "/tags"
  | SpokeOp.removeTags rid tid => "requests/" ++ rid ++ "/tags/" ++ tid

/-- The writes each `Spoke` endpoint method performs on the two shared
instance parameter slots before dispatch.  `getRequest` and
`deleteRequest` write neither slot in the source. -/
def SpokeOp.setSlots : SpokeOp → SpokeState → SpokeState
  | SpokeOp.listRequestTypes p, st =>
      { st with searchParams := some p, bodyParams := none }
  | SpokeOp.listTeams p, st =>
      { st with searchParams := some p, bodyParams := none }
  | SpokeOp.listUsers p, st =>
      { st with searchParams := some p, bodyParams := none }
  | SpokeOp.getRequest _, st => st
  | SpokeOp.deleteRequest _, st => st
  | SpokeOp.listRequests p, st =>
      { st with searchParams := some p, bodyParams := none }
  | SpokeOp.postRequest r, st =>
      { st with bodyParams := some r, searchParams := none }
  | SpokeOp.postMessage _ p, st =>
      { st with bodyParams := some p, searchParams := none }
  | SpokeOp.updateRequest _ p, st =>
      { st with bodyParams := some p, searchParams := none }
  | SpokeOp.updateTeam _ p, st =>
      { st with bodyParams := some p, searchParams := none }
  | SpokeOp.listTags p, st =>
      { st with searchParams := some p, bodyParams := none }
  | SpokeOp.addTags _ p, st =>
      { st with bodyParams := some p, searchParams := none }
  | SpokeOp.removeTags _ _, st =>
      { st with bodyParams := none, searchParams := none }

/-- At most one of the two shared parameter slots of a `Spoke` instance is
defined. -/
def slotsOk (st : SpokeState) : Bool :=
  !(st.searchParams.isSome && st.bodyParams.isSome)

/-- At most one of the query slot and the JSON body slot of an issued
request is defined. -/
def reqSlotsOk (r : Request) : Bool :=
  !(r.searchParams.isSome && r.json.isSome)

/-- The `Spoke` endpoint operations that place their payload in the JSON
body slot. -/
inductive BodyOp where
  | postRequest
  | postMessage (requestId : String)
  | updateRequest (requestId : String)
  | updateTeam (teamId : String)
  | addTags (requestId : String)
deriving DecidableEq

/-- A body operation applied to a body payload. -/
def BodyOp.toOp : BodyOp → Params → SpokeOp
  | BodyOp.postRequest, x => SpokeOp.postRequest x
  | BodyOp.postMessage rid, x => SpokeOp.postMessage rid x
  | BodyOp.updateRequest rid, x => SpokeOp.updateRequest rid x
  | BodyOp.updateTeam tid, x => SpokeOp.updateTeam tid x
  | BodyOp.addTags rid, x => SpokeOp.addTags rid x

/-- The `Spoke` endpoint operations that place their payload in the query
slot. -/
inductive QueryOp where
  | listRequestTypes
  | listTeams
  | listUsers
  | listRequests
  | listTags
deriving DecidableEq

/-- A query operation applied to a query payload. -/
def QueryOp.toOp : QueryOp → Params → SpokeOp
  | QueryOp.listRequestTypes, y => SpokeOp.listRequestTypes y
  | QueryOp.listTeams, y => SpokeOp.listTeams y
  | QueryOp.listUsers, y => SpokeOp.listUsers y
  | QueryOp.listRequests, y => SpokeOp.listRequests y
  | QueryOp.listTags, y => SpokeOp.listTags y

namespace Spoke

variable {ε ρ : Type}

/-- If the store read succeeds, `fetchToken` caches and returns the
secret string and counts one read. -/
lemma fetchToken_ok (store : Nat → Except ε String) (st : SpokeState)
    (s : String) (h : store st.trace.reads = Except.ok s) :
    fetchToken store st =
      (Except.ok s,
        { st with cacheToken := some s,
                  trace := { st.trace with reads := st.trace.reads + 1 } }) := by
  unfold fetchToken
  rw [h]

/-- If the store read fails, `fetchToken` rejects with the original error,
counts one read, and leaves the cache untouched. -/
lemma fetchToken_error (store : Nat → Except ε String) (st : SpokeState)
    (e : ε) (h : store st.trace.reads = Except.error e) :
    fetchToken store st =
      (Except.error e,
        { st with trace := { st.trace with reads := st.trace.reads + 1 } }) := by
  unfold fetchToken
  rw [h]

/-- A truthy cached token is returned as-is, with no state change. -/
lemma token_of_truthy (store : Nat → Except ε String) (st : SpokeState)
    (t : String) (hc : st.cacheToken = some t) (ht : t ≠ "") :
    token store st = (Except.ok t, st) := by
  unfold token
  rw [hc]
  simp [ht]

/-- With an untruthy cache slot, `token` falls through to the store read. -/
lemma token_of_untruthy (store : Nat → Except ε String) (st : SpokeState)
    (h : jsTruthy st.cacheToken = false) :
    token store st = fetchToken store st := by
  unfold token
  cases hc : st.cacheToken with
  | none => rfl
  | some t =>
    rw [hc] at h
    simp [jsTruthy] at h
    simp [h]

/-- Exhaustive behaviour of `token`: either the cache slot is truthy and
it returns the cached string with no effect, or the cache slot is untruthy
and it performs exactly one store read, caching on success and leaving the
cache alone on failure. -/
lemma token_cases (store : Nat → Except ε String) (st : SpokeState) :
    (∃ t, st.cacheToken = some t ∧ t ≠ "" ∧ token store st = (Except.ok t, st))
  ∨ (jsTruthy st.cacheToken = false ∧
      ((∃ s, store st.trace.reads = Except.ok s ∧
          token store st =
            (Except.ok s,
              { st with
                  cacheToken := some s
                  trace := { st.trace with reads := st.trace.reads + 1 } }))
       ∨ (∃ e, store st.trace.reads = Except.error e ∧
          token store st =
            (Except.error e,
              { st with trace := { st.trace with reads := st.trace.reads + 1 } })))) := by
  cases htr : jsTruthy st.cacheToken with
  | false =>
    have htok : token store st = fetchToken store st := token_of_untruthy store st htr
    right
    refine ⟨rfl, ?_⟩
    cases hs : store st.trace.reads with
    | ok s => exact Or.inl ⟨s, rfl, by rw [htok, fetchToken_ok store st s hs]⟩
    | error e => exact Or.inr ⟨e, rfl, by rw [htok, fetchToken_error store st e hs]⟩
  | true =>
    left
    have hex : ∃ t, st.cacheToken = some t ∧ t ≠ "" := by
      cases hcc : st.cacheToken with
      | none =>
        rw [hcc] at htr
        simp [jsTruthy] at htr
      | some c =>
        rw [hcc] at htr
        refine ⟨c, rfl, ?_⟩
        simpa [jsTruthy] using htr
    obtain ⟨t, hc, ht⟩ := hex
    exact ⟨t, hc, ht, token_of_truthy store st t hc ht⟩

/-- `token` never touches the secret path, the parameter slots, or the
request trace, and performs at most one secret-store read. -/
lemma token_state_pair (store : Nat → Except ε String) (st : SpokeState)
    (r : Except ε String) (st' : SpokeState) (h : token store st = (r, st')) :
    st'.secretPath = st.secretPath ∧ st'.searchParams = st.searchParams
    ∧ st'.bodyParams = st.bodyParams
    ∧ st'.trace.requests = st.trace.requests
    ∧ st'.trace.reads ≤ st.trace.reads + 1 := by
  rcases token_cases store st with ⟨t, hc, ht, heq⟩ | ⟨-, h2⟩
  · rw [heq] at h
    simp only [Prod.mk.injEq] at h
    rw [← h.2]
    simp [Nat.le_succ]
  · rcases h2 with ⟨s, hs, heq⟩ | ⟨e, hs, heq⟩
    · rw [heq] at h
      simp only [Prod.mk.injEq] at h
      rw [← h.2]
      simp [Nat.le_succ]
    · rw [heq] at h
      simp only [Prod.mk.injEq] at h
      rw [← h.2]
      simp [Nat.le_succ]

/-- A successful `token` call leaves the returned token in the cache. -/
lemma token_ok_cache (store : Nat → Except ε String) (st : SpokeState)
    (t : String) (st' : SpokeState) (h : token store st = (Except.ok t, st')) :
    st'.cacheToken = some t := by
  rcases token_cases store st with ⟨t2, hc, ht, heq⟩ | ⟨-, h2⟩
  · rw [heq] at h
    simp only [Prod.mk.injEq, Except.ok.injEq] at h
    rw [← h.2, hc, h.1]
  · rcases h2 with ⟨s, hs, heq⟩ | ⟨e, hs, heq⟩
    · rw [heq] at h
      simp only [Prod.mk.injEq, Except.ok.injEq] at h
      rw [← h.2]
      simp [h.1]
    · rw [heq] at h
      simp at h

/-- A failed `token` call happened on an untruthy cache, rejects the
store's own error, performs exactly one more read, and changes nothing
else in the state. -/
lemma token_error_pair (store : Nat → Except ε String) (st : SpokeState)
    (e : ε) (st' : SpokeState) (h : token store st = (Except.error e, st')) :
    jsTruthy st.cacheToken = false
    ∧ store st.trace.reads = Except.error e
    ∧ st' = { st with trace := { st.trace with reads := st.trace.reads + 1 } } := by
  rcases token_cases store st with ⟨t2, hc, ht, heq⟩ | ⟨hfalse, h2⟩
  · rw [heq] at h
    simp at h
  · rcases h2 with ⟨s, hs, heq⟩ | ⟨e2, hs, heq⟩
    · rw [heq] at h
      simp at h
    · rw [heq] at h
      simp only [Prod.mk.injEq, Except.error.injEq] at h
      refine ⟨hfalse, ?_, h.2.symm⟩
      rw [hs, h.1]

/-- `gotClient` propagates a token failure unchanged. -/
lemma gotClient_error (store : Nat → Except ε String) (st : SpokeState)
    (e : ε) (st' : SpokeState) (h : token store st = (Except.error e, st')) :
    gotClient store st = (Except.error e, st') := by
  unfold gotClient
  rw [h]

/-- `gotClient` packages a resolved token with the current slots. -/
lemma gotClient_ok (store : Nat → Except ε String) (st : SpokeState)
    (t : String) (st' : SpokeState) (h : token store st = (Except.ok t, st')) :
    gotClient store st =
      (Except.ok
        { prefixUrl := spokePrefixUrl, apiKey := t,
          searchParams := st'.searchParams, json := st'.bodyParams }, st') := by
  unfold gotClient
  rw [h]

/-- `dispatch` and `dispatchUnawaited` are extensionally the same: the
awaited try/catch re-raises errors and re-returns responses unchanged, so
skipping the await changes nothing observable. -/
lemma dispatch_eq_duw (store : Nat → Except ε String) (http : Nat → Except ε ρ)
    (m : Method) (ep : String) (st : SpokeState) :
    dispatch store http m ep st = dispatchUnawaited store http m ep st := by
  unfold dispatch dispatchUnawaited
  split
  · rfl
  · split
    · next r s heq2 => exact heq2.symm
    · next e s heq2 => exact heq2.symm

/-- If token resolution fails, every dispatch returns that failure with
the resolver's final state and issues no HTTP request. -/
lemma duw_of_token_error (store : Nat → Except ε String) (http : Nat → Except ε ρ)
    (m : Method) (ep : String) (st : SpokeState) (e : ε) (st' : SpokeState)
    (h : token store st = (Except.error e, st')) :
    dispatchUnawaited store http m ep st = (Except.error e, st') := by
  unfold dispatchUnawaited
  rw [gotClient_error store st e st' h]

/-- If token resolution succeeds, dispatch issues exactly one HTTP request
carrying the resolved token and a snapshot of the two parameter slots, and
returns the transport's settlement of that request unchanged. -/
lemma duw_of_token_ok (store : Nat → Except ε String) (http : Nat → Except ε ρ)
    (m : Method) (ep : String) (st : SpokeState) (t : String) (st' : SpokeState)
    (h : token store st = (Except.ok t, st')) :
    dispatchUnawaited store http m ep st =
      (http st.trace.requests.length,
        { st' with
            trace := { st'.trace with
              requests := st.trace.requests ++
                [{ method := m
                   url := spokePrefixUrl ++ ep
                   headers := [("Api-key", t)]
                   searchParams := st.searchParams
                   json := st.bodyParams }] } }) := by
  obtain ⟨-, hsp, hbp, hreq, -⟩ := token_state_pair store st _ st' h
  unfold dispatchUnawaited
  rw [gotClient_ok store st t st' h]
  unfold gotCall
  simp only [hreq, hsp, hbp]

/-- Exhaustive behaviour of one dispatch: either token resolution fails
and the failure is returned with no request issued, or it succeeds and
exactly one request is appended, built from the verb, the endpoint, the
resolved token, and the current parameter slots, with the transport's
settlement of it returned unchanged. -/
lemma duw_cases (store : Nat → Except ε String) (http : Nat → Except ε ρ)
    (m : Method) (ep : String) (st : SpokeState) :
    (∃ e st', token store st = (Except.error e, st') ∧
        dispatchUnawaited store http m ep st = (Except.error e, st'))
  ∨ (∃ t st', token store st = (Except.ok t, st') ∧
        dispatchUnawaited store http m ep st =
          (http st.trace.requests.length,
            { st' with
                trace := { st'.trace with
                  requests := st.trace.requests ++
                    [{ method := m
                       url := spokePrefixUrl ++ ep
                       headers := [("Api-key", t)]
                       searchParams := st.searchParams
                       json := st.bodyParams }] } })) := by
  cases hT : token store st with
  | mk r st' =>
    cases r with
    | error e =>
      exact Or.inl ⟨e, st', rfl, duw_of_token_error store http m ep st e st' hT⟩
    | ok t =>
      exact Or.inr ⟨t, st', rfl, duw_of_token_ok store http m ep st t st' hT⟩

/-- Every request present after a dispatch was either already in the
trace or carries a snapshot of the pre-dispatch parameter slots. -/
lemma duw_requests_mem (store : Nat → Except ε String) (http : Nat → Except ε ρ)
    (m : Method) (ep : String) (st : SpokeState) {r : Request}
    (hr : r ∈ (dispatchUnawaited store http m ep st).2.trace.requests) :
    r ∈ st.trace.requests
    ∨ (r.searchParams = st.searchParams ∧ r.json = st.bodyParams) := by
  rcases duw_cases store http m ep st with ⟨e, st', hT, hD⟩ | ⟨t, st', hT, hD⟩
  · rw [hD] at hr
    obtain ⟨-, -, -, hreq, -⟩ := token_state_pair store st _ st' hT
    rw [hreq] at hr
    exact Or.inl hr
  · rw [hD] at hr
    simp only [List.mem_append, List.mem_singleton] at hr
    rcases hr with hr | hr
    · exact Or.inl hr
    · subst hr
      exact Or.inr ⟨rfl, rfl⟩

/-- A dispatch never modifies the two parameter slots. -/
lemma duw_slots (store : Nat → Except ε String) (http : Nat → Except ε ρ)
    (m : Method) (ep : String) (st : SpokeState) :
    (dispatchUnawaited store http m ep st).2.searchParams = st.searchParams
    ∧ (dispatchUnawaited store http m ep st).2.bodyParams = st.bodyParams := by
  rcases duw_cases store http m ep st with ⟨e, st', hT, hD⟩ | ⟨t, st', hT, hD⟩ <;>
    rw [hD] <;>
    obtain ⟨-, hsp, hbp, -, -⟩ := token_state_pair store st _ st' hT <;>
    exact ⟨hsp, hbp⟩

/-- Every `Spoke` endpoint method is one dispatch of its verb and
endpoint from the state produced by its slot writes. -/
lemma runOp_eq (store : Nat → Except ε String) (http : Nat → Except ε ρ)
    (op : SpokeOp) (st : SpokeState) :
    runOp store http op st =
      dispatchUnawaited store http op.method op.endpoint (op.setSlots st) := by
  cases op <;>
    simp only [runOp, SpokeOp.method, SpokeOp.endpoint, SpokeOp.setSlots,
      listRequestTypes, listTeams, listUsers, getRequest, deleteRequest,
      listRequests, postRequest, postMessage, updateRequest, updateTeam,
      listTags, addTags, removeTags, dispatch_eq_duw]

end Spoke

/-- The slot writes of an endpoint method touch nothing but the two
parameter slots. -/
lemma setSlots_state (op : SpokeOp) (st : SpokeState) :
    (op.setSlots st).trace = st.trace
    ∧ (op.setSlots st).cacheToken = st.cacheToken
    ∧ (op.setSlots st).secretPath = st.secretPath := by
  cases op <;> simp [SpokeOp.setSlots]

/-- The slot writes of every endpoint method preserve the
at-most-one-slot invariant. -/
lemma slotsOk_setSlots (op : SpokeOp) (st : SpokeState)
    (h : slotsOk st = true) : slotsOk (op.setSlots st) = true := by
  cases op <;> simp_all [SpokeOp.setSlots, slotsOk]

/-- One endpoint operation preserves the at-most-one-slot invariant on
the instance and only ever appends requests that themselves satisfy it. -/
lemma runOp_slots_inv {ε ρ : Type} (store : Nat → Except ε String)
    (http : Nat → Except ε ρ) (op : SpokeOp) (st : SpokeState)
    (h : slotsOk st = true) :
    slotsOk (runOp store http op st).2 = true
    ∧ ∀ r ∈ (runOp store http op st).2.trace.requests,
        r ∈ st.trace.requests ∨ reqSlotsOk r = true := by
  rw [Spoke.runOp_eq]
  have hset : slotsOk (op.setSlots st) = true := slotsOk_setSlots op st h
  have hsl := Spoke.duw_slots store http op.method op.endpoint (op.setSlots st)
  constructor
  · unfold slotsOk at hset ⊢
    rw [hsl.1, hsl.2]
    exact hset
  · intro r hr
    rcases Spoke.duw_requests_mem store http op.method op.endpoint (op.setSlots st) hr with
      hin | ⟨hsp, hjs⟩
    · left
      rwa [(setSlots_state op st).1] at hin
    · right
      unfold reqSlotsOk
      unfold slotsOk at hset
      rw [hsp, hjs]
      exact hset

/-- Along any strictly sequential run, every issued request satisfies the
at-most-one-slot invariant, provided the start state does. -/
lemma runOps_requests_inv {ε ρ : Type} (store : Nat → Except ε String)
    (http : Nat → Except ε ρ) (ops : List SpokeOp) (st : SpokeState)
    (h : slotsOk st = true)
    (hreq : ∀ r ∈ st.trace.requests, reqSlotsOk r = true) :
    ∀ r ∈ (runOps store http ops st).trace.requests, reqSlotsOk r = true := by
  induction ops generalizing st with
  | nil => simpa [runOps] using hreq
  | cons op ops ih =>
    intro r hr
    simp only [runOps] at hr
    refine ih (runOp store http op st).2 (runOp_slots_inv store http op st h).1 ?_ r hr
    intro r2 hr2
    rcases (runOp_slots_inv store http op st h).2 r2 hr2 with hin | hok
    · exact hreq r2 hin
    · exact hok

/-- A body operation writes its payload to the body slot and clears the
query slot. -/
lemma bodyOp_setSlots (a : BodyOp) (x : Params) (st : SpokeState) :
    ((a.toOp x).setSlots st).bodyParams = some x
    ∧ ((a.toOp x).setSlots st).searchParams = none := by
  cases a <;> simp [BodyOp.toOp, SpokeOp.setSlots]

/-- A query operation writes its payload to the query slot and clears the
body slot. -/
lemma queryOp_setSlots (b : QueryOp) (y : Params) (st : SpokeState) :
    ((b.toOp y).setSlots st).searchParams = some y
    ∧ ((b.toOp y).setSlots st).bodyParams = none := by
  cases b <;> simp [QueryOp.toOp, SpokeOp.setSlots]

/-- One `AskSpoke` endpoint call leaves the secret-store read counter
untouched, and every request present afterwards was already there or
carries exactly the literal construction-time token header. -/
lemma askCall_inv {ε ρ : Type} (http : Nat → Except ε ρ) (c : AskSpokeClient)
    (m : Method) (url : String) (q b : Option Params) (tr : Trace) :
    (AskSpoke.call http c m url q b tr (ρ := ρ)).2.reads = tr.reads
    ∧ ∀ r ∈ (AskSpoke.call http c m url q b tr).2.requests,
        r ∈ tr.requests ∨ r.headers = [("Api-Key", c.askSpokeToken)] := by
  unfold AskSpoke.call
  refine ⟨rfl, ?_⟩
  intro r hr
  simp only [List.mem_append, List.mem_singleton] at hr
  rcases hr with hr | hr
  · exact Or.inl hr
  · subst hr
    exact Or.inr rfl

/-- C1 — counterexample to the claim as stated.  A secret store that
successfully returns the empty string: the first `token()` call succeeds
and stores the retrieved string in the cache, yet a second call performs a
second secret-store read (two reads in total), because the cache check
uses JS truthiness and treats the cached empty string as absent. -/
theorem C1_token_cache_counterexample :
    (Spoke.token (fun _ => (Except.ok "" : Except String String))
        (SpokeState.new "path/to/secret")).1 = Except.ok ""
    ∧ (Spoke.token (fun _ => (Except.ok "" : Except String String))
        ((Spoke.token (fun _ => (Except.ok "" : Except String String))
          (SpokeState.new "path/to/secret")).2)).2.trace.reads = 2 :=
  ⟨rfl, rfl⟩

/-- C1 (amended): for every Spoke client, if a `token()` call succeeds
with a non-empty secret string, that call performed at most one
secret-store read, and every later `token()` call returns the identical
cached value with no further secret-store read and no state change —
witness the second call's result being independent of the store oracle. -/
theorem C1_token_cache_amended {ε : Type} (store store2 : Nat → Except ε String)
    (st st' : SpokeState) (t : String)
    (h : Spoke.token store st = (Except.ok t, st')) (ht : t ≠ "") :
    st'.trace.reads ≤ st.trace.reads + 1
    ∧ Spoke.token store2 st' = (Except.ok t, st') := by
  have hc := Spoke.token_ok_cache store st t st' h
  have hst := Spoke.token_state_pair store st _ st' h
  exact ⟨hst.2.2.2.2, Spoke.token_of_truthy store2 st' t hc ht⟩

/-- Witness for C1 (amended) at a concrete client and store. -/
theorem C1_token_cache_amended_witness :
    Spoke.token (fun _ => (Except.ok "tok" : Except String String))
        (SpokeState.new "path/to/secret") =
      (Except.ok "tok",
        (Spoke.token (fun _ => (Except.ok "tok" : Except String String))
          (SpokeState.new "path/to/secret")).2)
    ∧ "tok" ≠ ""
    ∧ ((Spoke.token (fun _ => (Except.ok "tok" : Except String String))
          (SpokeState.new "path/to/secret")).2.trace.reads ≤
        (SpokeState.new "path/to/secret").trace.reads + 1
      ∧ Spoke.token (fun _ => (Except.error "store down" : Except String String))
          (Spoke.token (fun _ => (Except.ok "tok" : Except String String))
            (SpokeState.new "path/to/secret")).2 =
        (Except.ok "tok",
          (Spoke.token (fun _ => (Except.ok "tok" : Except String String))
            (SpokeState.new "path/to/secret")).2)) :=
  ⟨rfl, by decide,
    C1_token_cache_amended (fun _ => (Except.ok "tok" : Except String String))
      (fun _ => (Except.error "store down" : Except String String))
      (SpokeState.new "path/to/secret") _ "tok" rfl (by decide)⟩

/-- C2 — every error outcome of every `Spoke` endpoint operation is an
error value produced verbatim by one of the two external oracles (the
secret store or the HTTP transport) — no wrapping and no translation —
and the operation performed at most one secret-store read and issued at
most one HTTP request — no retry. -/
theorem C2_error_propagation {ε ρ : Type} (store : Nat → Except ε String)
    (http : Nat → Except ε ρ) (op : SpokeOp) (st : SpokeState) :
    (∀ e st1, Spoke.token store (op.setSlots st) = (Except.error e, st1) →
        runOp store http op st = (Except.error e, st1))
    ∧ (∀ t st1, Spoke.token store (op.setSlots st) = (Except.ok t, st1) →
        (runOp store http op st).1 = http st.trace.requests.length)
    ∧ (∀ e, (runOp store http op st).1 = Except.error e →
        (∃ n, store n = Except.error e) ∨ (∃ n, http n = Except.error e))
    ∧ (runOp store http op st).2.trace.reads ≤ st.trace.reads + 1
    ∧ (runOp store http op st).2.trace.requests.length ≤
        st.trace.requests.length + 1 := by
  have htr : (op.setSlots st).trace = st.trace := (setSlots_state op st).1
  refine ⟨?_, ?_, ?_, ?_, ?_⟩
  · intro e st1 hT
    rw [Spoke.runOp_eq]
    exact Spoke.duw_of_token_error store http op.method op.endpoint
      (op.setSlots st) e st1 hT
  · intro t st1 hT
    rw [Spoke.runOp_eq,
      Spoke.duw_of_token_ok store http op.method op.endpoint (op.setSlots st) t st1 hT]
    simp [htr]
  · intro e h
    rw [Spoke.runOp_eq] at h
    rcases Spoke.duw_cases store http op.method op.endpoint (op.setSlots st) with
      ⟨e2, st', hT, hD⟩ | ⟨t, st', hT, hD⟩
    · rw [hD] at h
      have he : e2 = e := by simpa using h
      subst he
      exact Or.inl ⟨(op.setSlots st).trace.reads,
        (Spoke.token_error_pair store (op.setSlots st) e2 st' hT).2.1⟩
    · rw [hD] at h
      exact Or.inr ⟨(op.setSlots st).trace.requests.length, h⟩
  · rw [Spoke.runOp_eq]
    rcases Spoke.duw_cases store http op.method op.endpoint (op.setSlots st) with
      ⟨e2, st', hT, hD⟩ | ⟨t, st', hT, hD⟩
    · rw [hD]
      obtain ⟨-, -, hst'⟩ := Spoke.token_error_pair store (op.setSlots st) e2 st' hT
      rw [hst']
      simp [htr]
    · rw [hD]
      have hreads := (Spoke.token_state_pair store (op.setSlots st) _ st' hT).2.2.2.2
      rw [htr] at hreads
      exact hreads
  · rw [Spoke.runOp_eq]
    rcases Spoke.duw_cases store http op.method op.endpoint (op.setSlots st) with
      ⟨e2, st', hT, hD⟩ | ⟨t, st', hT, hD⟩
    · rw [hD]
      obtain ⟨-, -, hst'⟩ := Spoke.token_error_pair store (op.setSlots st) e2 st' hT
      rw [hst']
      simp [htr, Nat.le_succ]
    · rw [hD]
      simp [htr]

/-- Witness for C2 at a concrete failing store: the operation's outcome
is exactly the token-resolution rejection. -/
theorem C2_error_propagation_witness :
    Spoke.token (fun _ => (Except.error "secret missing" : Except String String))
        ((SpokeOp.listTeams [("q", "IT")]).setSlots (SpokeState.new "path/to/secret")) =
      (Except.error "secret missing",
        (Spoke.token (fun _ => (Except.error "secret missing" : Except String String))
          ((SpokeOp.listTeams [("q", "IT")]).setSlots (SpokeState.new "path/to/secret"))).2)
    ∧ runOp (fun _ => (Except.error "secret missing" : Except String String))
        (fun _ => (Except.ok "resp" : Except String String))
        (SpokeOp.listTeams [("q", "IT")]) (SpokeState.new "path/to/secret") =
      (Except.error "secret missing",
        (Spoke.token (fun _ => (Except.error "secret missing" : Except String String))
          ((SpokeOp.listTeams [("q", "IT")]).setSlots (SpokeState.new "path/to/secret"))).2) :=
  ⟨rfl,
    (C2_error_propagation (fun _ => (Except.error "secret missing" : Except String String))
      (fun _ => (Except.ok "resp" : Except String String))
      (SpokeOp.listTeams [("q", "IT")]) (SpokeState.new "path/to/secret")).1
      "secret missing" _ rfl⟩

/-- C9 — a failed secret-store read during `token()` rejects with the
store's own error, leaves every instance field (cache included)
unchanged and untruthy, records exactly one more read, and the next
`token()` call falls through the cache check to the store again. -/
theorem C9_failed_resolution {ε : Type} (store : Nat → Except ε String)
    (st : SpokeState) (e : ε) (st' : SpokeState)
    (h : Spoke.token store st = (Except.error e, st')) :
    st'.secretPath = st.secretPath
    ∧ st'.cacheToken = st.cacheToken
    ∧ st'.searchParams = st.searchParams
    ∧ st'.bodyParams = st.bodyParams
    ∧ jsTruthy st'.cacheToken = false
    ∧ store st.trace.reads = Except.error e
    ∧ st'.trace.reads = st.trace.reads + 1
    ∧ st'.trace.requests = st.trace.requests
    ∧ Spoke.token store st' = Spoke.fetchToken store st' := by
  obtain ⟨hfalse, hs, hst'⟩ := Spoke.token_error_pair store st e st' h
  subst hst'
  exact ⟨rfl, rfl, rfl, rfl, hfalse, hs, rfl, rfl,
    Spoke.token_of_untruthy store _ hfalse⟩

/-- Witness for C9 at a concrete always-failing store. -/
theorem C9_failed_resolution_witness :
    Spoke.token (fun _ => (Except.error "access denied" : Except String String))
        (SpokeState.new "path/to/secret") =
      (Except.error "access denied",
        (Spoke.token (fun _ => (Except.error "access denied" : Except String String))
          (SpokeState.new "path/to/secret")).2)
    ∧ (Spoke.token (fun _ => (Except.error "access denied" : Except String String))
        (SpokeState.new "path/to/secret")).2.cacheToken =
      (SpokeState.new "path/to/secret").cacheToken
    ∧ (Spoke.token (fun _ => (Except.error "access denied" : Except String String))
        (SpokeState.new "path/to/secret")).2.trace.reads =
      (SpokeState.new "path/to/secret").trace.reads + 1 :=
  ⟨rfl,
    (C9_failed_resolution (fun _ => (Except.error "access denied" : Except String String))
      (SpokeState.new "path/to/secret") "access denied" _ rfl).2.1,
    (C9_failed_resolution (fun _ => (Except.error "access denied" : Except String String))
      (SpokeState.new "path/to/secret") "access denied" _ rfl).2.2.2.2.2.2.1⟩

/-- C3 — along every sequence of endpoint operations run sequentially on
one fresh `Spoke` instance, every HTTP request ever issued (each a
snapshot of the slots at client-construction time) has at most one of the
two parameter slots defined, never both. -/
theorem C3_at_most_one_slot {ε ρ : Type} (store : Nat → Except ε String)
    (http : Nat → Except ε ρ) (ops : List SpokeOp) (p : String) (r : Request)
    (hr : r ∈ (runOps store http ops (SpokeState.new p)).trace.requests) :
    reqSlotsOk r = true :=
  runOps_requests_inv store http ops (SpokeState.new p) rfl
    (by
      intro r2 h2
      simp [SpokeState.new] at h2) r hr

/-- Witness for C3 at a concrete one-operation run. -/
theorem C3_at_most_one_slot_witness :
    ({ method := Method.GET
       url := "https://api.askspoke.com/api/v1/teams"
       headers := [("Api-key", "tok")]
       searchParams := some [("q", "IT")]
       json := none } : Request) ∈
      (runOps (fun _ => (Except.ok "tok" : Except String String))
        (fun _ => (Except.ok "resp" : Except String String))
        [SpokeOp.listTeams [("q", "IT")]] (SpokeState.new "p")).trace.requests
    ∧ reqSlotsOk
        { method := Method.GET
          url := "https://api.askspoke.com/api/v1/teams"
          headers := [("Api-key", "tok")]
          searchParams := some [("q", "IT")]
          json := none } = true :=
  ⟨by decide,
    C3_at_most_one_slot (fun _ => (Except.ok "tok" : Except String String))
      (fun _ => (Except.ok "resp" : Except String String))
      [SpokeOp.listTeams [("q", "IT")]] "p"
      { method := Method.GET
        url := "https://api.askspoke.com/api/v1/teams"
        headers := [("Api-key", "tok")]
        searchParams := some [("q", "IT")]
        json := none } (by decide)⟩

/-- C8 — strict sequential isolation: run a body operation with payload
`x`, then a query operation with payload `y`, from any state.  Every
request the first operation issues carries body `x` and an empty query
slot; every request the second operation issues carries query `y` and an
empty body slot — nothing of `x` reaches the second request and nothing
of `y` reaches the first. -/
theorem C8_param_isolation {ε ρ : Type} (store : Nat → Except ε String)
    (http : Nat → Except ε ρ) (a : BodyOp) (b : QueryOp) (x y : Params)
    (st : SpokeState) :
    (∀ r ∈ (runOp store http (a.toOp x) st).2.trace.requests,
        r ∈ st.trace.requests ∨ (r.json = some x ∧ r.searchParams = none))
    ∧ (∀ r ∈ (runOp store http (b.toOp y)
          (runOp store http (a.toOp x) st).2).2.trace.requests,
        r ∈ (runOp store http (a.toOp x) st).2.trace.requests
        ∨ (r.searchParams = some y ∧ r.json = none)) := by
  constructor
  · intro r hr
    rw [Spoke.runOp_eq] at hr
    rcases Spoke.duw_requests_mem store http (a.toOp x).method (a.toOp x).endpoint
        ((a.toOp x).setSlots st) hr with hin | ⟨hsp, hjs⟩
    · left
      rwa [(setSlots_state (a.toOp x) st).1] at hin
    · right
      exact ⟨hjs.trans (bodyOp_setSlots a x st).1,
        hsp.trans (bodyOp_setSlots a x st).2⟩
  · intro r hr
    rw [Spoke.runOp_eq] at hr
    rcases Spoke.duw_requests_mem store http (b.toOp y).method (b.toOp y).endpoint
        ((b.toOp y).setSlots (runOp store http (a.toOp x) st).2) hr with
      hin | ⟨hsp, hjs⟩
    · left
      rwa [(setSlots_state (b.toOp y) (runOp store http (a.toOp x) st).2).1] at hin
    · right
      exact ⟨hsp.trans (queryOp_setSlots b y (runOp store http (a.toOp x) st).2).1,
        hjs.trans (queryOp_setSlots b y (runOp store http (a.toOp x) st).2).2⟩

/-- Witness for C8: post a message body, then list teams with a query. -/
theorem C8_param_isolation_witness :
    ({ method := Method.GET
       url := "https://api.askspoke.com/api/v1/teams"
       headers := [("Api-key", "tok")]
       searchParams := some [("q", "IT")]
       json := none } : Request) ∈
      (runOp (fun _ => (Except.ok "tok" : Except String String))
        (fun _ => (Except.ok "resp" : Except String String))
        ((QueryOp.listTeams).toOp [("q", "IT")])
        (runOp (fun _ => (Except.ok "tok" : Except String String))
          (fun _ => (Except.ok "resp" : Except String String))
          ((BodyOp.postMessage "60ad2021").toOp [("text", "hi")])
          (SpokeState.new "p")).2).2.trace.requests
    ∧ (({ method := Method.GET
          url := "https://api.askspoke.com/api/v1/teams"
          headers := [("Api-key", "tok")]
          searchParams := some [("q", "IT")]
          json := none } : Request) ∈
        (runOp (fun _ => (Except.ok "tok" : Except String String))
          (fun _ => (Except.ok "resp" : Except String String))
          ((BodyOp.postMessage "60ad2021").toOp [("text", "hi")])
          (SpokeState.new "p")).2.trace.requests
      ∨ (some [("q", "IT")] = some [("q", "IT")]
          ∧ (none : Option Params) = none)) :=
  ⟨by decide,
    (C8_param_isolation (fun _ => (Except.ok "tok" : Except String String))
      (fun _ => (Except.ok "resp" : Except String String))
      (BodyOp.postMessage "60ad2021") QueryOp.listTeams
      [("text", "hi")] [("q", "IT")] (SpokeState.new "p")).2
      { method := Method.GET
        url := "https://api.askspoke.com/api/v1/teams"
        headers := [("Api-key", "tok")]
        searchParams := some [("q", "IT")]
        json := none } (by decide)⟩

/-- C7 — the literal-token `AskSpoke` client: no endpoint operation ever
performs a secret-store read, and every request it issues carries exactly
the construction-time token in its `Api-Key` header. -/
theorem C7_literal_token {ε ρ : Type} (http : Nat → Except ε ρ)
    (c : AskSpokeClient) (op : AskOp) (tr : Trace) :
    (runAskOp http c op tr).2.reads = tr.reads
    ∧ ∀ r ∈ (runAskOp http c op tr).2.requests,
        r ∈ tr.requests ∨ r.headers = [("Api-Key", c.askSpokeToken)] := by
  cases op <;> exact askCall_inv http c _ _ _ _ tr

/-- Witness for C7 at a concrete literal-token client. -/
theorem C7_literal_token_witness :
    (runAskOp (fun _ => (Except.ok "resp" : Except String String))
        { askSpokeToken := "tok-1" } (AskOp.listTeams [("q", "IT")])
        { reads := 0, requests := [] }).2.reads = 0
    ∧ ({ method := Method.GET
         url := "https://api.askSpoke.com/api/v1/teams/"
         headers := [("Api-Key", "tok-1")]
         searchParams := some [("q", "IT")]
         json := none } : Request) ∈
        (runAskOp (fun _ => (Except.ok "resp" : Except String String))
          { askSpokeToken := "tok-1" } (AskOp.listTeams [("q", "IT")])
          { reads := 0, requests := [] }).2.requests
    ∧ (({ method := Method.GET
          url := "https://api.askSpoke.com/api/v1/teams/"
          headers := [("Api-Key", "tok-1")]
          searchParams := some [("q", "IT")]
          json := none } : Request) ∈ ({ reads := 0, requests := [] } : Trace).requests
        ∨ ({ method := Method.GET
             url := "https://api.askSpoke.com/api/v1/teams/"
             headers := [("Api-Key", "tok-1")]
             searchParams := some [("q", "IT")]
             json := none } : Request).headers = [("Api-Key", "tok-1")]) :=
  ⟨(C7_literal_token (fun _ => (Except.ok "resp" : Except String String))
      { askSpokeToken := "tok-1" } (AskOp.listTeams [("q", "IT")])
      { reads := 0, requests := [] }).1,
    by decide,
    (C7_literal_token (fun _ => (Except.ok "resp" : Except String String))
      { askSpokeToken := "tok-1" } (AskOp.listTeams [("q", "IT")])
      { reads := 0, requests := [] }).2
      { method := Method.GET
        url := "https://api.askSpoke.com/api/v1/teams/"
        headers := [("Api-Key", "tok-1")]
        searchParams := some [("q", "IT")]
        json := none } (by decide)⟩

/-- C4 — evaluation at the failing input.  The `AskSpoke` revision's
update-team issues its single PATCH to `{apiUrl}/{teamId}` with the
`teams/` path segment missing, contradicting both the endpoint table and
its own doc comment; the `Spoke` revision's update-team issues the
expected PATCH to `teams/{teamId}` with the params in the JSON body and
no query parameters. -/
theorem C4_updateTeam_path :
    (runAskOp (fun _ => (Except.ok "resp" : Except String String))
        { askSpokeToken := "tok-1" } (AskOp.updateTeam "team-1" [("k", "v")])
        { reads := 0, requests := [] }).2.requests =
      [{ method := Method.PATCH
         url := "https://api.askSpoke.com/api/v1/team-1"
         headers := [("Api-Key", "tok-1")]
         searchParams := none
         json := some [("k", "v")] }]
    ∧ "https://api.askSpoke.com/api/v1/team-1" ≠
        "https://api.askSpoke.com/api/v1" ++ "/teams/" ++ "team-1"
    ∧ (runOp (fun _ => (Except.ok "tok-2" : Except String String))
        (fun _ => (Except.ok "resp" : Except String String))
        (SpokeOp.updateTeam "team-1" [("k", "v")])
        (SpokeState.new "p")).2.trace.requests =
      [{ method := Method.PATCH
         url := "https://api.askspoke.com/api/v1/teams/team-1"
         headers := [("Api-key", "tok-2")]
         searchParams := none
         json := some [("k", "v")] }] :=
  ⟨rfl, by decide, rfl⟩

/-- C5 — the secret-store scenario: a fresh client over a store returning
tok-2, asked to list teams with query q=IT, performs exactly one
secret-store read and issues exactly one GET to `teams` whose query is
q=IT and whose single header is named Api-Key up to HTTP header case
(spelled `Api-key` in the source) with value tok-2. -/
theorem C5_listTeams_scenario :
    (Spoke.listTeams (fun _ => (Except.ok "tok-2" : Except String String))
        (fun _ => (Except.ok "resp" : Except String String))
        [("q", "IT")] (SpokeState.new "path/to/secret")).1 = Except.ok "resp"
    ∧ (Spoke.listTeams (fun _ => (Except.ok "tok-2" : Except String String))
        (fun _ => (Except.ok "resp" : Except String String))
        [("q", "IT")] (SpokeState.new "path/to/secret")).2.trace.reads = 1
    ∧ (Spoke.listTeams (fun _ => (Except.ok "tok-2" : Except String String))
        (fun _ => (Except.ok "resp" : Except String String))
        [("q", "IT")] (SpokeState.new "path/to/secret")).2.trace.requests =
      [{ method := Method.GET
         url := "https://api.askspoke.com/api/v1/teams"
         headers := [("Api-key", "tok-2")]
         searchParams := some [("q", "IT")]
         json := none }]
    ∧ headerGet "Api-Key" [("Api-key", "tok-2")] = some "tok-2" :=
  ⟨rfl, rfl, rfl, by decide⟩

/-- C6 — evaluation at the failing input.  After list-teams has set the
shared query slot, get-request (which never clears the slots in the
source) issues its GET to `requests/60ad2021` still carrying the stale
query q=IT, where the claim and the endpoint table say it attaches no
query parameters. -/
theorem C6_getRequest_stale_query :
    (Spoke.getRequest (fun _ => (Except.ok "tok-2" : Except String String))
        (fun _ => (Except.ok "resp" : Except String String)) "60ad2021"
        (Spoke.listTeams (fun _ => (Except.ok "tok-2" : Except String String))
          (fun _ => (Except.ok "resp" : Except String String))
          [("q", "IT")] (SpokeState.new "path/to/secret")).2).2.trace.requests =
      [{ method := Method.GET
         url := "https://api.askspoke.com/api/v1/teams"
         headers := [("Api-key", "tok-2")]
         searchParams := some [("q", "IT")]
         json := none },
       { method := Method.GET
         url := "https://api.askspoke.com/api/v1/requests/60ad2021"
         headers := [("Api-key", "tok-2")]
         searchParams := some [("q", "IT")]
         json := none }]
    ∧ some [("q", "IT")] ≠ (none : Option Params) :=
  ⟨rfl, by decide⟩

/-- C10 — list-requests (whose HTTP call is returned un-awaited, so its
catch block can only see token failures and the HTTP call's settlement is
adopted by the returned promise): a token failure rejects with the
original error and issues no request; once the token resolves, exactly
one GET to `requests` is issued and the operation's outcome is the
transport's settlement of it unchanged — the original rejection on
failure, the response on success. -/
theorem C10_listRequests_propagation {ε ρ : Type} (store : Nat → Except ε String)
    (http : Nat → Except ε ρ) (params : Params) (st : SpokeState) :
    (∀ e st1,
        Spoke.token store
            { st with searchParams := some params, bodyParams := none } =
          (Except.error e, st1) →
        Spoke.listRequests store http params st = (Except.error e, st1))
    ∧ (∀ t st1,
        Spoke.token store
            { st with searchParams := some params, bodyParams := none } =
          (Except.ok t, st1) →
        Spoke.listRequests store http params st =
          (http st.trace.requests.length,
            { st1 with
                trace := { st1.trace with
                  requests := st.trace.requests ++
                    [{ method := Method.GET
                       url := Spoke.spokePrefixUrl ++ "requests"
                       headers := [("Api-key", t)]
                       searchParams := some params
                       json := none }] } })) := by
  constructor
  · intro e st1 hT
    have hD := Spoke.duw_of_token_error store http Method.GET "requests"
      { st with searchParams := some params, bodyParams := none } e st1 hT
    simpa [Spoke.listRequests] using hD
  · intro t st1 hT
    have hD := Spoke.duw_of_token_ok store http Method.GET "requests"
      { st with searchParams := some params, bodyParams := none } t st1 hT
    simpa [Spoke.listRequests] using hD

/-- Witness for C10: the token resolves, the transport rejects, and the
operation's outcome is that exact rejection. -/
theorem C10_listRequests_propagation_witness :
    Spoke.token (fun _ => (Except.ok "tok-2" : Except String String))
        { SpokeState.new "p" with searchParams := some [("q", "IT")], bodyParams := none } =
      (Except.ok "tok-2",
        (Spoke.token (fun _ => (Except.ok "tok-2" : Except String String))
          { SpokeState.new "p" with searchParams := some [("q", "IT")], bodyParams := none }).2)
    ∧ Spoke.listRequests (fun _ => (Except.ok "tok-2" : Except String String))
        (fun _ => (Except.error "socket hang up" : Except String String))
        [("q", "IT")] (SpokeState.new "p") =
      ((fun _ => (Except.error "socket hang up" : Except String String))
          (SpokeState.new "p").trace.requests.length,
        { (Spoke.token (fun _ => (Except.ok "tok-2" : Except String String))
            { SpokeState.new "p" with searchParams := some [("q", "IT")], bodyParams := none }).2 with
            trace := { (Spoke.token (fun _ => (Except.ok "tok-2" : Except String String))
                { SpokeState.new "p" with searchParams := some [("q", "IT")], bodyParams := none }).2.trace with
              requests := (SpokeState.new "p").trace.requests ++
                [{ method := Method.GET
                   url := Spoke.spokePrefixUrl ++ "requests"
                   headers := [("Api-key", "tok-2")]
                   searchParams := some [("q", "IT")]
                   json := none }] } })
    ∧ (Spoke.listRequests (fun _ => (Except.ok "tok-2" : Except String String))
        (fun _ => (Except.error "socket hang up" : Except String String))
        [("q", "IT")] (SpokeState.new "p")).1 = Except.error "socket hang up" :=
  ⟨rfl,
    (C10_listRequests_propagation (fun _ => (Except.ok "tok-2" : Except String String))
      (fun _ => (Except.error "socket hang up" : Except String String))
      [("q", "IT")] (SpokeState.new "p")).2 "tok-2" _ rfl,
    rfl⟩

end AskSpokeSdk
